import Mathlib

/-
Verification of the document housekeeping subsystem of grist-core:
trash collection of soft-deleted workspaces/documents/forks, eviction of
locally cached document copies, the exclusivity gate around housekeeping
passes, and the attachment-storage transfer logic.

The Housekeeper server code (app/gen-server/lib/Housekeeper.ts) is not part
of the sources available here; its behaviour is modelled from the
specification (sections 3, 4.1-4.5, 6) and cross-checked against the
Housekeeper test suite (test/gen-server/Housekeeper.ts).  The
attachment-storage settings logic is embedded directly from
app/client/ui/DocumentSettings.ts.
-/

namespace Grist

/-! ## RetentionClock -/

/-- Modelled from the spec: section 4.1 RetentionClock (the implementation in
app/gen-server/lib/Housekeeper.ts is not among the available sources).
True iff now - referenceTimestamp >= thresholdDays * 86400 seconds.
Timestamps are integers counting seconds. -/
def isExpired (referenceTimestamp now thresholdDays : Int) : Bool :=
  decide (thresholdDays * 86400 ≤ now - referenceTimestamp)

/-- Modelled from the spec: configuration default (section 6). -/
def WORKSPACE_RETENTION_DAYS : Int := 30

/-- Modelled from the spec: configuration default (section 6). -/
def DOCUMENT_RETENTION_DAYS : Int := 30

/-- Modelled from the spec: configuration default (section 6). -/
def FORK_RETENTION_DAYS : Int := 30

/-! ## ResourceStore data model (spec section 3) -/

/-- Modelled from the spec: a workspace record with its soft-delete marker. -/
structure Workspace where
  id : Nat
  removedAt : Option Int
deriving DecidableEq

/-- Modelled from the spec: a non-fork document record, contained in a
workspace by foreign reference, with its soft-delete marker. -/
structure Document where
  id : Nat
  wsId : Nat
  removedAt : Option Int
deriving DecidableEq

/-- Modelled from the spec: a fork record.  Forks expire by inactivity on
updatedAt; their removedAt is carried but ignored by expiry. -/
structure Fork where
  forkId : Nat
  trunkId : Nat
  updatedAt : Int
  removedAt : Option Int
deriving DecidableEq

/-- Modelled from the spec: the durable ResourceStore contents together with
the on-disk storage, as seen by the TrashCollector.  `files` lists the ids
(document or fork ids) whose physical storage file exists. -/
structure ResourceStore where
  workspaces : List Workspace
  docs : List Document
  forks : List Fork
  files : List Nat
deriving DecidableEq

/-! ## TrashCollector (spec section 4.2) -/

/-- Modelled from the spec: a workspace is eligible for hard deletion when
removedAt is present and expired past the workspace retention threshold. -/
def wsExpired (now : Int) (w : Workspace) : Bool :=
  match w.removedAt with
  | some r => isExpired r now WORKSPACE_RETENTION_DAYS
  | none => false

/-- Modelled from the spec: a document is eligible on its own when removedAt
is present and expired past the document retention threshold. -/
def docOwnExpired (now : Int) (d : Document) : Bool :=
  match d.removedAt with
  | some r => isExpired r now DOCUMENT_RETENTION_DAYS
  | none => false

/-- Modelled from the spec: a document is cascade-deleted when its containing
workspace is itself eligible for hard deletion, regardless of the document's
own soft-delete state. -/
def docCascaded (s : ResourceStore) (now : Int) (d : Document) : Bool :=
  s.workspaces.any (fun w => w.id == d.wsId && wsExpired now w)

/-- Modelled from the spec: a document is removed by a pass when cascaded or
expired on its own. -/
def docGone (s : ResourceStore) (now : Int) (d : Document) : Bool :=
  docCascaded s now d || docOwnExpired now d

/-- Modelled from the spec: forks expire by inactivity, on updatedAt, not on
removedAt. -/
def forkExpired (now : Int) (f : Fork) : Bool :=
  isExpired f.updatedAt now FORK_RETENTION_DAYS

/-- Modelled from the spec: a physical file is removed when the document or
fork it belongs to is removed in this pass. -/
def fileGone (s : ResourceStore) (now : Int) (p : Nat) : Bool :=
  s.docs.any (fun d => d.id == p && docGone s now d)
    || s.forks.any (fun f => f.forkId == p && forkExpired now f)

/-- Modelled from the spec: one TrashCollector pass, `collect(now)`
(Housekeeper.deleteTrash).  Steps 1-3 of section 4.2 amount to removing the
expired workspaces, the documents that are cascaded or expired, the expired
forks, and the physical files of every removed document or fork. -/
def collect (s : ResourceStore) (now : Int) : ResourceStore where
  workspaces := s.workspaces.filter (fun w => !wsExpired now w)
  docs := s.docs.filter (fun d => !docGone s now d)
  forks := s.forks.filter (fun f => !forkExpired now f)
  files := s.files.filter (fun p => !fileGone s now p)

/-- Modelled from the spec: `n` TrashCollector passes run at the same now. -/
def collectN (s : ResourceStore) (now : Int) : Nat → ResourceStore
  | 0 => s
  | n + 1 => collectN (collect s now) now n

/-! ## ExclusivityGate and Housekeeper entry point (spec sections 4.4, 6) -/

/-- Modelled from the spec: Housekeeper state, the ResourceStore plus the
named cluster-wide exclusivity lock for the housekeeping run.  The lock is a
single named boolean flag (spec section 3, ExclusivityLock); following the
behaviour exercised by the Housekeeper test suite, the lock stays held after
a completed pass until it is explicitly cleared. -/
structure Housekeeper where
  store : ResourceStore
  lockHeld : Bool
deriving DecidableEq

/-- Modelled from the spec: `runTrashCollectionExclusively` /
`deleteTrashExclusively` (section 6).  Atomically tries to acquire the
housekeeping lock; on contention it returns false immediately without doing
any work, otherwise it performs one TrashCollector pass and returns true. -/
def deleteTrashExclusively (h : Housekeeper) (now : Int) : Bool × Housekeeper :=
  if h.lockHeld then (false, h)
  else (true, ⟨collect h.store now, true⟩)

/-- Modelled from the spec: `clearExclusivity` / `testClearExclusivity`, the
administrative/test-only reset of the lock (section 6). -/
def testClearExclusivity (h : Housekeeper) : Housekeeper :=
  ⟨h.store, false⟩

/-! ## CacheIndex and CacheEvictor (spec sections 3, 4.3) -/

/-- Modelled from the spec: a CacheIndex entry: how many sessions hold the
document open and, if none, when it was last closed. -/
structure CacheEntry where
  docId : Nat
  refCount : Nat
  lastClosedAt : Option Int
deriving DecidableEq

/-- Modelled from the spec: the CacheIndex together with the on-disk cached
copies (`cachedFiles` lists the docIds whose local cached file exists). -/
structure CacheIndex where
  entries : List CacheEntry
  cachedFiles : List Nat
deriving DecidableEq

/-- Modelled from the spec: an entry is eligible for eviction when refCount
is zero, lastClosedAt is present, and the grace period has elapsed
(section 4.3). -/
def evictable (grace now : Int) (e : CacheEntry) : Bool :=
  e.refCount == 0 &&
    match e.lastClosedAt with
    | some t => decide (grace ≤ now - t)
    | none => false

/-- Modelled from the spec: one CacheEvictor pass, `cleanup(now)`
(Housekeeper.cleanupCache): delete the on-disk cached file and drop the
entry of every eligible entry; entries with refCount > 0 are always
skipped.  The grace period is the CACHE_GRACE_PERIOD configuration value,
passed explicitly. -/
def cleanup (grace : Int) (c : CacheIndex) (now : Int) : CacheIndex where
  entries := c.entries.filter (fun e => !evictable grace now e)
  cachedFiles :=
    c.cachedFiles.filter
      (fun p => !(c.entries.any (fun e => e.docId == p && evictable grace now e)))

/-- Modelled from the spec: a sequence of cleanup passes, one per element of
`nows`, run left to right. -/
def cleanupN (grace : Int) (c : CacheIndex) (nows : List Int) : CacheIndex :=
  nows.foldl (fun st now => cleanup grace st now) c

/-- Modelled from the spec: `open(docId)` from the session layer
(sections 3, 6): created on first open (which caches the file locally);
reopening increments refCount and clears lastClosedAt. -/
def openDoc (c : CacheIndex) (docId : Nat) : CacheIndex :=
  if c.entries.any (fun e => e.docId == docId) then
    { c with
      entries := c.entries.map (fun e =>
        if e.docId == docId then
          { e with refCount := e.refCount + 1, lastClosedAt := none }
        else e) }
  else
    { entries := ⟨docId, 1, none⟩ :: c.entries,
      cachedFiles := docId :: c.cachedFiles }

/-- Modelled from the spec: `close(docId)` from the session layer
(section 3): decrement refCount (never below zero) and stamp lastClosedAt
with the close time when it reaches zero. -/
def closeDoc (c : CacheIndex) (docId : Nat) (now : Int) : CacheIndex :=
  { c with
    entries := c.entries.map (fun e =>
      if e.docId == docId then
        let rc := e.refCount - 1
        { e with refCount := rc,
                 lastClosedAt := if rc == 0 then some now else e.lastClosedAt }
      else e) }

/-! ## Attachment storage kinds and the client-side settings logic
(app/client/ui/DocumentSettings.ts, embedded from source) -/

/-- Attachment storage kinds, the INTERNAL/EXTERNAL constants of
DocumentSettings._buildAttachmentStorageSection. -/
inductive StoreKind where
  | internal
  | external
deriving DecidableEq

/-- Values of the locationSummary field reported by the transfer status
(DocAttachmentsLocation): the prevailing location of a document's
attachments, or `none` when the document has no attachments, or `mixed`
while attachments are split between the stores. -/
inductive LocSummary where
  | internal
  | external
  | mixed
  | none
deriving DecidableEq

/-- Maps the currently selected storage type to the summary value it is
compared against in the JS expression `summary === current`. -/
def summaryOfKind : StoreKind → LocSummary
  | StoreKind.internal => LocSummary.internal
  | StoreKind.external => LocSummary.external

/-- Embedded from DocumentSettings.ts (allInCurrent computed): the JS
expression `summary && summary === current || summary === 'none'`, where
`summary` is undefined (`Option.none` here) while no transfer status is
loaded. -/
def allInCurrent (summary : Option LocSummary) (current : StoreKind) : Bool :=
  match summary with
  | Option.none => false
  | some s => (s == summaryOfKind current) || (s == LocSummary.none)

/-- Embedded from DocumentSettings.ts (stillInternal computed):
`currentExternal && (inProgress || !allInCurrent)`. -/
def stillInternal (storageType : StoreKind) (inProgress allInCur : Bool) : Bool :=
  (storageType == StoreKind.external) && (inProgress || !allInCur)

/-- Embedded from DocumentSettings.ts (stillExternal computed):
`currentInternal && (inProgress || !allInCurrent)`. -/
def stillExternal (storageType : StoreKind) (inProgress allInCur : Bool) : Bool :=
  (storageType == StoreKind.internal) && (inProgress || !allInCur)

/-- Embedded from DocumentSettings.ts: the condition under which the
"Start transfer" button is rendered,
`dom.maybe(use => !use(allInCurrent) && !use(inProgress), ...)`. -/
def startTransferShown (allInCur inProgress : Bool) : Bool :=
  !allInCur && !inProgress

/-! ## AttachmentTransferOrchestrator (spec section 4.5) -/

/-- Modelled from the spec: job status of a TransferJob. -/
inductive JobStatus where
  | running
  | done
  | failed
deriving DecidableEq

/-- Modelled from the spec: a TransferJob record (section 3). -/
structure TransferJob where
  docId : Nat
  sourceKind : StoreKind
  destKind : StoreKind
  status : JobStatus
  locationSummary : LocSummary
deriving DecidableEq

/-- Modelled from the spec: the AttachmentTransferOrchestrator's job
records. -/
structure Orchestrator where
  jobs : List TransferJob
deriving DecidableEq

/-- Modelled from the spec: the job currently running for a document, if
any (exactly one active TransferJob per document at a time). -/
def findRunning (o : Orchestrator) (docId : Nat) : Option TransferJob :=
  o.jobs.find? (fun j => j.docId == docId && j.status == JobStatus.running)

/-- Modelled from the spec: `start(docId, destKind)` /
`startAttachmentTransfer` (sections 4.5, 6): if a job is already running for
docId, returns the existing job unchanged; otherwise creates a running job
(initialized with the current location summary). -/
def start (o : Orchestrator) (docId : Nat) (src dest : StoreKind)
    (curSummary : LocSummary) : TransferJob × Orchestrator :=
  match findRunning o docId with
  | some j => (j, o)
  | Option.none =>
    let j : TransferJob := ⟨docId, src, dest, JobStatus.running, curSummary⟩
    (j, ⟨j :: o.jobs⟩)

/-- Modelled from the spec: an attachment blob and the backend it currently
resides in. -/
structure Blob where
  blobId : Nat
  location : StoreKind
deriving DecidableEq

/-- Modelled from the spec: a full transfer streams every attachment blob to
the destination backend (section 4.5). -/
def transferAll (atts : List Blob) (dest : StoreKind) : List Blob :=
  atts.map (fun b => ⟨b.blobId, dest⟩)

/-- Modelled from the spec: locationSummary records the prevailing location
of attachments: internal, external, or none if there are no attachments
(section 3); mixed while they are split. -/
def locationSummaryOf (atts : List Blob) : LocSummary :=
  if atts.isEmpty then LocSummary.none
  else if atts.all (fun b => b.location == StoreKind.internal) then LocSummary.internal
  else if atts.all (fun b => b.location == StoreKind.external) then LocSummary.external
  else LocSummary.mixed

/-! ## Theorems -/

/-- Helper: membership in the workspaces of a collected store. -/
theorem mem_collect_workspaces {s : ResourceStore} {now : Int} {w : Workspace} :
    w ∈ (collect s now).workspaces ↔ w ∈ s.workspaces ∧ wsExpired now w = false := by
  simp [collect, List.mem_filter]

/-- Helper: membership in the documents of a collected store. -/
theorem mem_collect_docs {s : ResourceStore} {now : Int} {d : Document} :
    d ∈ (collect s now).docs ↔ d ∈ s.docs ∧ docGone s now d = false := by
  simp [collect, List.mem_filter]

/-- Helper: membership in the forks of a collected store. -/
theorem mem_collect_forks {s : ResourceStore} {now : Int} {f : Fork} :
    f ∈ (collect s now).forks ↔ f ∈ s.forks ∧ forkExpired now f = false := by
  simp [collect, List.mem_filter]

/-- Helper: membership in the files of a collected store. -/
theorem mem_collect_files {s : ResourceStore} {now : Int} {p : Nat} :
    p ∈ (collect s now).files ↔ p ∈ s.files ∧ fileGone s now p = false := by
  simp [collect, List.mem_filter]

/-- C1: for every workspace whose removedAt is present and expired past the
workspace retention threshold, after one TrashCollector pass neither the
workspace nor any document it previously contained exists in the
ResourceStore, even for contained documents whose own removedAt is absent
or not yet expired (the quantified document is arbitrary). -/
theorem C1_cascade_invariant :
    ∀ (s : ResourceStore) (now r : Int) (w : Workspace),
      w ∈ s.workspaces → w.removedAt = some r →
      isExpired r now WORKSPACE_RETENTION_DAYS = true →
      w ∉ (collect s now).workspaces ∧
      ∀ d ∈ s.docs, d.wsId = w.id → d ∉ (collect s now).docs := by
  intro s now r w hw hrem hexp
  have hwsExp : wsExpired now w = true := by simp [wsExpired, hrem, hexp]
  constructor
  · intro hmem
    have h2 := (mem_collect_workspaces.mp hmem).2
    rw [hwsExp] at h2
    exact Bool.noConfusion h2
  · intro d hd hwid hmem
    have hc : docCascaded s now d = true := by
      unfold docCascaded
      exact List.any_eq_true.mpr ⟨w, hw, by simp [hwid, hwsExp]⟩
    have hgone : docGone s now d = true := by simp [docGone, hc]
    have h2 := (mem_collect_docs.mp hmem).2
    rw [hgone] at h2
    exact Bool.noConfusion h2

/-- Witness for C1 at a concrete input: a workspace soft-deleted exactly
thirty days ago and a contained document that was never soft-deleted; the
pass removes both. -/
theorem C1_cascade_invariant_witness :
    (⟨1, some 0⟩ : Workspace) ∉
      (collect ⟨[⟨1, some 0⟩], [⟨5, 1, Option.none⟩], [], []⟩ (30 * 86400)).workspaces ∧
    (⟨5, 1, Option.none⟩ : Document) ∉
      (collect ⟨[⟨1, some 0⟩], [⟨5, 1, Option.none⟩], [], []⟩ (30 * 86400)).docs := by
  have h := C1_cascade_invariant ⟨[⟨1, some 0⟩], [⟨5, 1, Option.none⟩], [], []⟩
    (30 * 86400) 0 ⟨1, some 0⟩ (by decide) rfl (by decide)
  exact ⟨h.1, h.2 ⟨5, 1, Option.none⟩ (by decide) rfl⟩

/-- Counterexample for C2 as stated: a document soft-deleted twenty days ago
(inside its thirty-day retention window at `now`) is nevertheless removed by
one TrashCollector pass, because its containing workspace was soft-deleted
forty days ago and the cascade overrides the child's own soft-delete
state. -/
theorem C2_counterexample :
    ((40 * 86400 : Int) - 20 * 86400 < DOCUMENT_RETENTION_DAYS * 86400) ∧
    (⟨5, 1, some (20 * 86400)⟩ : Document) ∈
      (⟨[⟨1, some 0⟩], [⟨5, 1, some (20 * 86400)⟩], [], []⟩ : ResourceStore).docs ∧
    (⟨5, 1, some (20 * 86400)⟩ : Document) ∉
      (collectN ⟨[⟨1, some 0⟩], [⟨5, 1, some (20 * 86400)⟩], [], []⟩ (40 * 86400) 1).docs := by
  decide

/-- C2 amended: a soft-deleted workspace within its retention window
survives any number of TrashCollector passes at that now; a soft-deleted
document within its retention window survives any number of passes at that
now provided its containing workspace is not itself expired (otherwise the
cascade of C1 applies). -/
theorem C2_non_premature_deletion :
    ∀ (s : ResourceStore) (now : Int) (n : Nat),
      (∀ (w : Workspace) (r : Int), w ∈ s.workspaces → w.removedAt = some r →
        isExpired r now WORKSPACE_RETENTION_DAYS = false →
        w ∈ (collectN s now n).workspaces) ∧
      (∀ (d : Document) (r : Int), d ∈ s.docs → d.removedAt = some r →
        isExpired r now DOCUMENT_RETENTION_DAYS = false →
        (∀ w ∈ s.workspaces, w.id = d.wsId → wsExpired now w = false) →
        d ∈ (collectN s now n).docs) := by
  intro s now n
  induction n generalizing s with
  | zero =>
    exact ⟨fun w r hw _ _ => hw, fun d r hd _ _ _ => hd⟩
  | succ n ih =>
    constructor
    · intro w r hw hrem hnexp
      simp only [collectN]
      apply (ih (collect s now)).1 w r _ hrem hnexp
      exact mem_collect_workspaces.mpr ⟨hw, by simp [wsExpired, hrem, hnexp]⟩
    · intro d r hd hrem hnexp hws
      simp only [collectN]
      have hc : docCascaded s now d = false := by
        unfold docCascaded
        apply List.any_eq_false.mpr
        intro w hw
        by_cases hid : w.id = d.wsId
        · simp [hid, hws w hw hid]
        · simp [hid]
      apply (ih (collect s now)).2 d r ?_ hrem hnexp ?_
      · apply mem_collect_docs.mpr
        exact ⟨hd, by simp [docGone, hc, docOwnExpired, hrem, hnexp]⟩
      · intro w hw _
        exact (mem_collect_workspaces.mp hw).2

/-- Witness for C2 amended at a concrete input: a workspace and a contained
document both soft-deleted ten days ago survive three passes run twenty days
after the epoch. -/
theorem C2_non_premature_deletion_witness :
    (⟨5, 1, some (10 * 86400)⟩ : Document) ∈
      (collectN ⟨[⟨1, some (10 * 86400)⟩], [⟨5, 1, some (10 * 86400)⟩], [], []⟩
        (20 * 86400) 3).docs :=
  (C2_non_premature_deletion ⟨[⟨1, some (10 * 86400)⟩], [⟨5, 1, some (10 * 86400)⟩], [], []⟩
      (20 * 86400) 3).2
    ⟨5, 1, some (10 * 86400)⟩ (10 * 86400) (by decide) rfl (by decide) (by decide)

/-- C4: a fork is removed (record and on-disk file) by a TrashCollector pass
exactly when now - updatedAt >= FORK_RETENTION_DAYS, independently of its
removedAt (the fork's removedAt is arbitrary); removing an expired fork
never removes the trunk document or the trunk's file; a fork below the
threshold is left intact (right-to-left direction of the iffs). -/
theorem C4_fork_independence :
    ∀ (s : ResourceStore) (now : Int) (f : Fork),
      f ∈ s.forks →
      ((f ∉ (collect s now).forks) ↔
        isExpired f.updatedAt now FORK_RETENTION_DAYS = true) ∧
      ((∀ d ∈ s.docs, d.id ≠ f.forkId) →
        (∀ g ∈ s.forks, g.forkId = f.forkId → g = f) →
        f.forkId ∈ s.files →
        ((f.forkId ∉ (collect s now).files) ↔
          isExpired f.updatedAt now FORK_RETENTION_DAYS = true)) ∧
      (∀ tr ∈ s.docs, docGone s now tr = false →
        tr ∈ (collect s now).docs ∧
        ((∀ d ∈ s.docs, d.id = tr.id → d = tr) →
          (∀ g ∈ s.forks, g.forkId ≠ tr.id) →
          tr.id ∈ s.files → tr.id ∈ (collect s now).files)) := by
  intro s now f hf
  refine ⟨?_, ?_, ?_⟩
  · constructor
    · intro hnot
      by_contra hne
      have hfe : forkExpired now f = false := by
        simpa [forkExpired] using Bool.not_eq_true _ ▸ (Bool.eq_false_iff.mpr hne)
      exact hnot (mem_collect_forks.mpr ⟨hf, hfe⟩)
    · intro hexp hmem
      have h2 := (mem_collect_forks.mp hmem).2
      rw [show forkExpired now f = true from hexp] at h2
      exact Bool.noConfusion h2
  · intro hdocs hforks hfile
    have hgone : fileGone s now f.forkId = forkExpired now f := by
      unfold fileGone
      have h1 : s.docs.any (fun d => d.id == f.forkId && docGone s now d) = false := by
        apply List.any_eq_false.mpr
        intro d hd
        simp [hdocs d hd]
      rw [h1]
      cases hfe : forkExpired now f with
      | true =>
        simp only [Bool.false_or]
        exact List.any_eq_true.mpr ⟨f, hf, by simp [hfe]⟩
      | false =>
        simp only [Bool.false_or]
        apply List.any_eq_false.mpr
        intro g hg
        by_cases hid : g.forkId = f.forkId
        · have := hforks g hg hid
          subst this
          simp [hfe]
        · simp [hid]
    constructor
    · intro hnot
      by_contra hne
      have hfe : forkExpired now f = false := Bool.eq_false_iff.mpr (by simpa [forkExpired] using hne)
      exact hnot (mem_collect_files.mpr ⟨hfile, by rw [hgone, hfe]⟩)
    · intro hexp hmem
      have h2 := (mem_collect_files.mp hmem).2
      rw [hgone] at h2
      rw [show forkExpired now f = true from hexp] at h2
      exact Bool.noConfusion h2
  · intro tr htr hgone
    refine ⟨mem_collect_docs.mpr ⟨htr, hgone⟩, ?_⟩
    intro hdocs hforks hfile
    apply mem_collect_files.mpr
    refine ⟨hfile, ?_⟩
    unfold fileGone
    have h1 : s.docs.any (fun d => d.id == tr.id && docGone s now d) = false := by
      apply List.any_eq_false.mpr
      intro d hd
      by_cases hid : d.id = tr.id
      · have := hdocs d hd hid
        subst this
        simp [hgone]
      · simp [hid]
    have h2 : s.forks.any (fun g => g.forkId == tr.id && forkExpired now g) = false := by
      apply List.any_eq_false.mpr
      intro g hg
      simp [hforks g hg]
    rw [h1, h2]
    rfl

/-- Witness for C4 at a concrete input: a trunk document and one fork whose
updatedAt is forty days before now; the pass removes the fork's record and
file while the trunk's record and file remain. -/
theorem C4_fork_independence_witness :
    (⟨8, 7, 0, Option.none⟩ : Fork) ∉
      (collect ⟨[], [⟨7, 1, Option.none⟩], [⟨8, 7, 0, Option.none⟩], [7, 8]⟩ (40 * 86400)).forks ∧
    (8 : Nat) ∉
      (collect ⟨[], [⟨7, 1, Option.none⟩], [⟨8, 7, 0, Option.none⟩], [7, 8]⟩ (40 * 86400)).files ∧
    (⟨7, 1, Option.none⟩ : Document) ∈
      (collect ⟨[], [⟨7, 1, Option.none⟩], [⟨8, 7, 0, Option.none⟩], [7, 8]⟩ (40 * 86400)).docs ∧
    (7 : Nat) ∈
      (collect ⟨[], [⟨7, 1, Option.none⟩], [⟨8, 7, 0, Option.none⟩], [7, 8]⟩ (40 * 86400)).files := by
  have h := C4_fork_independence ⟨[], [⟨7, 1, Option.none⟩], [⟨8, 7, 0, Option.none⟩], [7, 8]⟩
    (40 * 86400) ⟨8, 7, 0, Option.none⟩ (by decide)
  have htr := h.2.2 ⟨7, 1, Option.none⟩ (by decide) (by decide)
  exact ⟨h.1.mpr (by decide), (h.2.1 (by decide) (by decide) (by decide)).mpr (by decide),
    htr.1, htr.2 (by decide) (by decide) (by decide)⟩

/-- Helper: an entry held open by at least one session is never eligible for
eviction. -/
theorem evictable_eq_false_of_pos {grace now : Int} {e : CacheEntry}
    (h : 0 < e.refCount) : evictable grace now e = false := by
  cases hrc : e.refCount with
  | zero => omega
  | succ n => simp [evictable, hrc]

/-- C5: a cache entry whose document is open (refCount > 0) is never evicted
by any number of CacheEvictor cleanup passes at any times: its entry and its
cached on-disk file are preserved.  The third hypothesis is the CacheIndex
invariant that the docId keys the map (every entry carrying this docId is
the open one). -/
theorem C5_cache_liveness :
    ∀ (grace : Int) (c : CacheIndex) (nows : List Int) (e : CacheEntry),
      e ∈ c.entries → 0 < e.refCount →
      (∀ x ∈ c.entries, x.docId = e.docId → 0 < x.refCount) →
      e ∈ (cleanupN grace c nows).entries ∧
      (e.docId ∈ c.cachedFiles → e.docId ∈ (cleanupN grace c nows).cachedFiles) := by
  intro grace c nows e
  induction nows generalizing c with
  | nil =>
    intro he _ _
    exact ⟨he, fun hf => hf⟩
  | cons now rest ih =>
    intro he hpos hkey
    have he' : e ∈ (cleanup grace c now).entries :=
      List.mem_filter.mpr ⟨he, by simp [evictable_eq_false_of_pos hpos]⟩
    have hkey' : ∀ x ∈ (cleanup grace c now).entries, x.docId = e.docId → 0 < x.refCount :=
      fun x hx => hkey x (List.mem_of_mem_filter hx)
    have hstep := ih (cleanup grace c now) he' hpos hkey'
    refine ⟨hstep.1, fun hf => hstep.2 ?_⟩
    apply List.mem_filter.mpr
    refine ⟨hf, ?_⟩
    simp only [Bool.not_eq_true']
    apply List.any_eq_false.mpr
    intro x hx
    by_cases hid : x.docId = e.docId
    · simp [hid, evictable_eq_false_of_pos (hkey x hx hid)]
    · simp [hid]

/-- Witness for C5 at a concrete input: a single open entry survives two
cleanup passes, file included. -/
theorem C5_cache_liveness_witness :
    (⟨3, 1, Option.none⟩ : CacheEntry) ∈
      (cleanupN 10 ⟨[⟨3, 1, Option.none⟩], [3]⟩ [100, 200]).entries ∧
    (3 : Nat) ∈ (cleanupN 10 ⟨[⟨3, 1, Option.none⟩], [3]⟩ [100, 200]).cachedFiles := by
  have h := C5_cache_liveness 10 ⟨[⟨3, 1, Option.none⟩], [3]⟩ [100, 200]
    ⟨3, 1, Option.none⟩ (by decide) (by decide) (by decide)
  exact ⟨h.1, h.2 (by decide)⟩

/-- C6: a document closed at T0 (single-entry cache) is not evicted by a
cleanup pass at any time t with t - T0 < grace (in particular at
T0 + grace/2); it is evicted, entry and cached file, at any t with
grace <= t - T0 (in particular at T0 + 2*grace); and after reopening and
closing again at T1, eviction eligibility is measured from T1, not from
T0. -/
theorem C6_cache_grace_and_reopen :
    ∀ (grace T0 T1 t : Int) (d : Nat),
      (t - T0 < grace →
        cleanup grace ⟨[⟨d, 0, some T0⟩], [d]⟩ t = ⟨[⟨d, 0, some T0⟩], [d]⟩) ∧
      (grace ≤ t - T0 →
        (cleanup grace ⟨[⟨d, 0, some T0⟩], [d]⟩ t).entries = [] ∧
        (cleanup grace ⟨[⟨d, 0, some T0⟩], [d]⟩ t).cachedFiles = []) ∧
      (closeDoc (openDoc ⟨[⟨d, 0, some T0⟩], [d]⟩ d) d T1 =
        ⟨[⟨d, 0, some T1⟩], [d]⟩) ∧
      (t - T1 < grace →
        cleanup grace (closeDoc (openDoc ⟨[⟨d, 0, some T0⟩], [d]⟩ d) d T1) t =
          closeDoc (openDoc ⟨[⟨d, 0, some T0⟩], [d]⟩ d) d T1) ∧
      (grace ≤ t - T1 →
        (cleanup grace (closeDoc (openDoc ⟨[⟨d, 0, some T0⟩], [d]⟩ d) d T1) t).entries = []) := by
  intro grace T0 T1 t d
  have hre : closeDoc (openDoc ⟨[⟨d, 0, some T0⟩], [d]⟩ d) d T1 =
      ⟨[⟨d, 0, some T1⟩], [d]⟩ := by
    simp [openDoc, closeDoc]
  refine ⟨?_, ?_, hre, ?_, ?_⟩
  · intro hlt
    have hn : ¬(grace ≤ t - T0) := not_le.mpr hlt
    simp [cleanup, evictable, hn]
  · intro hle
    simp [cleanup, evictable, hle]
  · intro hlt
    rw [hre]
    have hn : ¬(grace ≤ t - T1) := not_le.mpr hlt
    simp [cleanup, evictable, hn]
  · intro hle
    rw [hre]
    simp [cleanup, evictable, hle]

/-- Witness for C6 at a concrete input: grace 10, first close at 0, reclose
at 100, cleanup at 120 evicts in both configurations. -/
theorem C6_cache_grace_and_reopen_witness :
    (cleanup 10 ⟨[⟨3, 0, some 0⟩], [3]⟩ 120).entries = [] ∧
    (cleanup 10 (closeDoc (openDoc ⟨[⟨3, 0, some 0⟩], [3]⟩ 3) 3 100) 120).entries = [] := by
  have h := C6_cache_grace_and_reopen 10 0 100 120 3
  exact ⟨(h.2.1 (by decide)).1, h.2.2.2.2 (by decide)⟩

/-- C7: startAttachmentTransfer is an idempotent trigger: while a job is
running for a document, start returns that job and leaves the orchestrator
unchanged (in particular a second start right after a first returns the
first's job and state); and a second full transfer after a successful one is
a no-op, since all blobs already sit in the destination and locationSummary
already matches the destination kind (so the settings page's allInCurrent is
true and no transfer is offered). -/
theorem C7_transfer_idempotence :
    ∀ (o : Orchestrator) (docId : Nat) (src dest : StoreKind) (j : TransferJob)
      (atts : List Blob) (curSummary : LocSummary),
      (findRunning o docId = some j →
        start o docId src dest curSummary = (j, o)) ∧
      (findRunning o docId = Option.none →
        start (start o docId src dest curSummary).snd docId src dest curSummary =
          start o docId src dest curSummary) ∧
      (atts ≠ [] →
        locationSummaryOf (transferAll atts dest) = summaryOfKind dest ∧
        transferAll (transferAll atts dest) dest = transferAll atts dest ∧
        allInCurrent (some (locationSummaryOf (transferAll atts dest))) dest = true) := by
  intro o docId src dest j atts curSummary
  refine ⟨?_, ?_, ?_⟩
  · intro h
    simp [start, h]
  · intro h
    simp only [start, h]
    simp [findRunning]
  · intro hne
    obtain ⟨b, bs, rfl⟩ := List.exists_cons_of_ne_nil hne
    have hall : ∀ k : StoreKind,
        ((b :: bs).map (fun a => (⟨a.blobId, k⟩ : Blob))).all
          (fun x => x.location == k) = true := by
      intro k
      apply List.all_eq_true.mpr
      intro x hx
      obtain ⟨a, _, rfl⟩ := List.mem_map.mp hx
      simp
    have hsum : locationSummaryOf (transferAll (b :: bs) dest) = summaryOfKind dest := by
      cases dest with
      | internal =>
        simp [transferAll, locationSummaryOf, summaryOfKind, hall StoreKind.internal]
      | external =>
        have h1 : ((b :: bs).map (fun a => (⟨a.blobId, StoreKind.external⟩ : Blob))).all
            (fun x => x.location == StoreKind.internal) = false := by
          simp
        simp [transferAll, locationSummaryOf, summaryOfKind, hall StoreKind.external, h1]
    refine ⟨hsum, ?_, ?_⟩
    · simp [transferAll, List.map_map, Function.comp]
    · rw [hsum]
      cases dest <;> rfl

/-- Witness for C7 at a concrete input: starting a transfer twice on an
orchestrator with no running job, and a full transfer of one internal blob
to external storage. -/
theorem C7_transfer_idempotence_witness :
    start (start ⟨[]⟩ 1 StoreKind.internal StoreKind.external LocSummary.internal).snd
        1 StoreKind.internal StoreKind.external LocSummary.internal =
      start ⟨[]⟩ 1 StoreKind.internal StoreKind.external LocSummary.internal ∧
    locationSummaryOf (transferAll [⟨9, StoreKind.internal⟩] StoreKind.external) =
      summaryOfKind StoreKind.external := by
  have h := C7_transfer_idempotence ⟨[]⟩ 1 StoreKind.internal StoreKind.external
    ⟨0, StoreKind.internal, StoreKind.internal, JobStatus.done, LocSummary.none⟩
    [⟨9, StoreKind.internal⟩] LocSummary.internal
  exact ⟨h.2.1 rfl, (h.2.2 (by decide)).1⟩

/-- C9: for every referenceTimestamp, now and thresholdDays,
RetentionClock.isExpired returns true iff
now - referenceTimestamp >= thresholdDays * 86400 seconds; it is a pure
function of its three arguments with no hidden clock. -/
theorem C9_isExpired_iff :
    ∀ referenceTimestamp now thresholdDays : Int,
      isExpired referenceTimestamp now thresholdDays = true ↔
        thresholdDays * 86400 ≤ now - referenceTimestamp := by
  intro r n d
  simp [isExpired]

/-- Witness for C9 at a concrete input: a timestamp exactly one day in the
past is expired at a one-day threshold. -/
theorem C9_isExpired_iff_witness : isExpired 0 86400 1 = true :=
  (C9_isExpired_iff 0 86400 1).mpr (by decide)

/-- C10: in the attachment-storage settings logic, a locationSummary of
'none' makes allInCurrent true for both the internal and the external
selection, so the "Start transfer" button is not offered, and (when no
transfer is in progress) neither the still-internal nor the still-external
warning is shown. -/
theorem C10_no_attachments_all_in_current :
    ∀ (storageType : StoreKind) (inProgress : Bool),
      allInCurrent (some LocSummary.none) storageType = true ∧
      startTransferShown (allInCurrent (some LocSummary.none) storageType) inProgress = false ∧
      (inProgress = false →
        stillInternal storageType inProgress (allInCurrent (some LocSummary.none) storageType) = false ∧
        stillExternal storageType inProgress (allInCurrent (some LocSummary.none) storageType) = false) := by
  intro st inP
  cases st <;> cases inP <;> simp [allInCurrent, summaryOfKind, startTransferShown,
    stillInternal, stillExternal]

/-- Witness for C10 at a concrete input: external storage selected, no
transfer in progress, no attachments. -/
theorem C10_no_attachments_all_in_current_witness :
    allInCurrent (some LocSummary.none) StoreKind.external = true ∧
    stillInternal StoreKind.external false
      (allInCurrent (some LocSummary.none) StoreKind.external) = false :=
  ⟨(C10_no_attachments_all_in_current StoreKind.external false).1,
   ((C10_no_attachments_all_in_current StoreKind.external false).2.2 rfl).1⟩

/-- C8: a CacheEvictor cleanup pass with no eligible entry is a no-op: it
leaves every entry and every cached file unchanged (and, the pass being a
total function, it cannot raise an error). -/
theorem C8_cleanup_noop :
    ∀ (grace now : Int) (c : CacheIndex),
      (∀ e ∈ c.entries, evictable grace now e = false) →
      cleanup grace c now = c := by
  intro grace now c h
  obtain ⟨es, fs⟩ := c
  simp only [cleanup, CacheIndex.mk.injEq]
  constructor
  · apply List.filter_eq_self.mpr
    intro e he
    simp [h e he]
  · apply List.filter_eq_self.mpr
    intro p _
    simp only [Bool.not_eq_true']
    apply List.any_eq_false.mpr
    intro e he
    simp [h e he]

/-- Witness for C8 at a concrete input: a single open entry, which is not
eligible, so the pass changes nothing. -/
theorem C8_cleanup_noop_witness :
    cleanup 1000 ⟨[⟨7, 1, Option.none⟩], [7]⟩ 5000 = ⟨[⟨7, 1, Option.none⟩], [7]⟩ :=
  C8_cleanup_noop 1000 5000 ⟨[⟨7, 1, Option.none⟩], [7]⟩ (by decide)

/-- C3: starting from an unlocked Housekeeper, the first
deleteTrashExclusively call returns true and performs the pass; a second
call while the lock is held returns false and does no work at all; a third
call still returns false; after testClearExclusivity the next call returns
true again. -/
theorem C3_exclusivity :
    ∀ (h : Housekeeper) (now1 now2 now3 now4 : Int),
      h.lockHeld = false →
      (deleteTrashExclusively h now1).fst = true ∧
      (deleteTrashExclusively h now1).snd.store = collect h.store now1 ∧
      deleteTrashExclusively (deleteTrashExclusively h now1).snd now2 =
        (false, (deleteTrashExclusively h now1).snd) ∧
      (deleteTrashExclusively
        (deleteTrashExclusively (deleteTrashExclusively h now1).snd now2).snd now3).fst = false ∧
      (deleteTrashExclusively
        (testClearExclusivity (deleteTrashExclusively h now1).snd) now4).fst = true := by
  intro h n1 n2 n3 n4 hl
  simp [deleteTrashExclusively, testClearExclusivity, hl]

/-- Witness for C3 at a concrete input: an unlocked Housekeeper over an
empty store. -/
theorem C3_exclusivity_witness :
    (deleteTrashExclusively ⟨⟨[], [], [], []⟩, false⟩ 0).fst = true ∧
    deleteTrashExclusively (deleteTrashExclusively ⟨⟨[], [], [], []⟩, false⟩ 0).snd 1 =
      (false, (deleteTrashExclusively ⟨⟨[], [], [], []⟩, false⟩ 0).snd) :=
  ⟨(C3_exclusivity ⟨⟨[], [], [], []⟩, false⟩ 0 1 2 3 rfl).1,
   (C3_exclusivity ⟨⟨[], [], [], []⟩, false⟩ 0 1 2 3 rfl).2.2.1⟩

end Grist
